import Mathlib

/-!
Shallow embedding of the k8s-eip-operator reconciliation logic
(src/src/main.rs and src/eip_operator/src/eip.rs).

Effectful reconcile functions are embedded as pure functions from the
responses of the external collaborators (the EC2 API and the Kubernetes
API server) to the ordered list of mutating actions issued plus the
`Result` value.  Cloud reads (describe calls) are inputs; cloud and
cluster mutations (allocate, associate, disassociate, release, status
patches, deletes) are recorded in the action trace in program order, so
"no mutation was performed" is the statement that the trace is empty.
-/

namespace EipOperator

/-- The error enum of `src/src/main.rs` (only the data-carrying variants
the embedded functions can produce; SDK transport errors are modelled by
the describe responses being inputs). -/
inductive Error where
  | MissingEipStatus
  | MissingEipUid
  | MissingEipName
  | MissingPodUid
  | MissingPodName
  | MissingPodIp
  | MissingNodeName
  | MissingProviderId
  | MalformedProviderId
  | MultipleEipsTaggedForPod
  | MissingAllocationId
  | MissingPublicIp
  | MissingReservations
  | MissingInstances
  | MissingNetworkInterfaces
  | MissingAddresses
  | NoInterfaceWithThatIp
  | NoEipResourceWithThatPodName (pod_name : String)
deriving Repr, DecidableEq

/-- Kubernetes object metadata, restricted to the fields the operator reads
(`metadata.name`, `metadata.uid`, `metadata.resourceVersion`). -/
structure ObjectMeta where
  name : Option String
  uid : Option String
  resource_version : Option String
deriving Repr, DecidableEq

/-- The status fields of the Eip custom resource (`EipStatus` in both
src/src/main.rs and src/eip_operator/src/eip.rs). -/
structure EipStatus where
  allocation_id : Option String
  public_ip_address : Option String
  eni : Option String
  private_ip_address : Option String
deriving Repr, DecidableEq

/-- The v1 Eip spec of src/src/main.rs: `struct EipSpec { pod_name: String }`. -/
structure EipSpec where
  pod_name : String
deriving Repr, DecidableEq

/-- The v1 Eip custom resource as used by src/src/main.rs. -/
structure Eip where
  metadata : ObjectMeta
  spec : EipSpec
  status : Option EipStatus
deriving Repr, DecidableEq

/-- An EC2 address record, restricted to the fields read by the operator
(`aws_sdk_ec2::model::Address`). -/
structure Address where
  allocation_id : Option String
  public_ip : Option String
  network_interface_id : Option String
  private_ip_address : Option String
  association_id : Option String
deriving Repr, DecidableEq

/-- The response of `ec2.allocate_address` as consumed by `apply_eip`. -/
structure AllocateAddressResponse where
  allocation_id : Option String
  public_ip : Option String
deriving Repr, DecidableEq

/-- Mutating actions issued by the reconcilers against the cloud and the
cluster, recorded in program order. -/
inductive Action where
  | allocateAddress
  | associate (allocation_id eni private_ip : String)
  | disassociate (association_id : String)
  | releaseAddress (allocation_id : String)
  | patchStatusCreated (eip_name allocation_id public_ip : String)
  | patchStatusAttached (eip_name eni private_ip : String)
  | patchStatusDetached (eip_name : String)
  | deleteKubeEip (name : String)
deriving Repr, DecidableEq

/-- `apply_eip` (src/src/main.rs lines 449-502), embedded as a pure
function.  Inputs: the Eip object under reconcile, the `addresses` field
of the `describe_addresses_with_tag_value` response keyed by the Eip uid
(`none` models the field being absent), and the `allocate_address`
response used when no address is tagged yet.  Output: the trace of
mutating actions issued, in order, and the reconcile result. -/
def apply_eip (eip : Eip) (describeAddresses : Option (List Address))
    (allocResp : AllocateAddressResponse) : List Action × Except Error Unit :=
  match eip.metadata.uid with
  | none => ([], .error .MissingEipUid)
  | some _eip_uid =>
    match eip.metadata.name with
    | none => ([], .error .MissingEipName)
    | some eip_name =>
      match describeAddresses with
      | none => ([], .error .MissingAddresses)
      | some addresses =>
        match addresses with
        | [] =>
          match allocResp.allocation_id with
          | none => ([.allocateAddress], .error .MissingAllocationId)
          | some allocation_id =>
            match allocResp.public_ip with
            | none => ([.allocateAddress], .error .MissingPublicIp)
            | some public_ip =>
              ([.allocateAddress,
                .patchStatusCreated eip_name allocation_id public_ip], .ok ())
        | [addr] =>
          match addr.allocation_id with
          | none => ([], .error .MissingAllocationId)
          | some allocation_id =>
            match addr.public_ip with
            | none => ([], .error .MissingPublicIp)
            | some public_ip =>
              ([.patchStatusCreated eip_name allocation_id public_ip], .ok ())
        | _ :: _ :: _ => ([], .error .MultipleEipsTaggedForPod)

/-- The v2 Eip selector (src/eip_operator/src/eip.rs lines 76-83):
either a pod name or a node label map.  The `BTreeMap` is embedded as an
association list; its iteration order is the list order. -/
inductive EipSelector where
  | pod (pod_name : String)
  | node (selector : List (String × String))
deriving Repr, DecidableEq

/-- The v2 Eip spec: `struct EipSpec { selector: EipSelector }`. -/
structure V2EipSpec where
  selector : EipSelector
deriving Repr, DecidableEq

/-- The v2 Eip custom resource (src/eip_operator/src/eip.rs). -/
structure V2Eip where
  metadata : ObjectMeta
  spec : V2EipSpec
  status : Option EipStatus
deriving Repr, DecidableEq

/-- `Eip::new(name, spec)` as generated by kube's `CustomResource`
derive: metadata carries only the name, the rest is default. -/
def v2Eip_new (name : String) (spec : V2EipSpec) : V2Eip :=
  { metadata := { name := some name, uid := none, resource_version := none }
    spec := spec
    status := none }

/-- The lax v1 spec used by the migrator
(src/eip_operator/src/eip.rs lines 46-52): `pod_name` optional. -/
structure LaxEipSpec where
  pod_name : Option String
deriving Repr, DecidableEq

/-- A v1 Eip read through the lax deserializer. -/
structure LaxEip where
  metadata : ObjectMeta
  spec : LaxEipSpec
deriving Repr, DecidableEq

/-- `TryFrom<&v1::LaxEip> for v2::Eip`
(src/eip_operator/src/eip.rs lines 184-204): a present `pod_name` maps
to a v2 object with selector `Pod { pod_name }` whose resource version
is copied from the v1 object; a missing name is the hard error
`MissingEipName` (`.error (some _)`); a missing `pod_name` is the skip
result (`.error none`). -/
def v2_try_from (eip_v1 : LaxEip) : Except (Option Error) V2Eip :=
  match eip_v1.spec.pod_name with
  | some pod_name =>
    match eip_v1.metadata.name with
    | none => .error (some .MissingEipName)
    | some name =>
      let eip := v2Eip_new name ⟨.pod pod_name⟩
      .ok { eip with
              metadata := { eip.metadata with
                              resource_version := eip_v1.metadata.resource_version } }
  | none => .error none

/-- The v1 view of a v2 Eip: the `spec.podName` a v1 reader obtains from
the serialised object.  Modelled from the spec: the re-serialisation of
a v2 object as v1 is not code under src/; per the round-trip law of the
spec it reads the pod name out of the `Pod` selector variant. -/
def v1_view_pod_name (eip : V2Eip) : Option String :=
  match eip.spec.selector with
  | .pod pod_name => some pod_name
  | .node _ => none

/-- `upgrade_old_resources` (src/eip_operator/src/eip.rs lines 245-275)
over the list returned by the v1 list call: each convertible object
yields a `replace` through the v2 API (recorded as the pair of the
replace name and the new object), a hard error aborts, the skip result
moves on. -/
def upgrade_old_resources : List LaxEip → Except Error (List (String × V2Eip))
  | [] => .ok []
  | eip_v1 :: rest =>
    match v2_try_from eip_v1 with
    | .ok eip =>
      match upgrade_old_resources rest with
      | .ok replaces => .ok ((eip.metadata.name.getD "", eip) :: replaces)
      | .error e => .error e
    | .error (some e) => .error e
    | .error none => upgrade_old_resources rest

/-- `v2::Eip::matches_pod` (src/eip_operator/src/eip.rs lines 149-156). -/
def matches_pod (eip : V2Eip) (pod_name : String) : Bool :=
  match eip.spec.selector with
  | .pod this_pod_name => pod_name == this_pod_name
  | .node _ => false

/-- `v2::Eip::matches_node` (src/eip_operator/src/eip.rs lines 158-175):
every selector entry must be present in the node labels with an equal
value; a pod selector never matches a node. -/
def matches_node (eip : V2Eip) (node_labels : List (String × String)) : Bool :=
  match eip.spec.selector with
  | .node selector =>
    selector.all fun kv => node_labels.lookup kv.1 == some kv.2
  | .pod _ => false

/-- The label-rendering loop of `impl Display for EipSelector`
(src/eip_operator/src/eip.rs lines 91-103), including the flag handling
exactly as written: `first` starts `true` and is only assigned inside
the `if !first` branch. -/
def displayNodeLabels : Bool → List (String × String) → String
  | _, [] => ""
  | first, kv :: rest =>
    let sep := if !first then ", " else ""
    let first1 := if !first then false else first
    sep ++ kv.1 ++ ": " ++ kv.2 ++ displayNodeLabels first1 rest

/-- `impl Display for EipSelector` (src/eip_operator/src/eip.rs lines
85-106). -/
def eipSelectorDisplay : EipSelector → String
  | .pod pod_name => "Pod(" ++ pod_name ++ ")"
  | .node selector => "Node(" ++ displayNodeLabels true selector ++ ")"

/-- The effect on the Eip status of the merge patch issued by
`set_eip_status_created` (src/src/main.rs lines 177-199) and
`set_status_created` (src/eip_operator/src/eip.rs lines 310-332): a JSON
merge patch setting `allocationId` and `publicIpAddress`, leaving the
other two status fields as they were (absent keys are untouched by a
merge patch; a missing status subobject is created). -/
def merge_status_created (old : Option EipStatus)
    (allocation_id public_ip : String) : EipStatus :=
  { allocation_id := some allocation_id
    public_ip_address := some public_ip
    eni := match old with | none => none | some s => s.eni
    private_ip_address := match old with | none => none | some s => s.private_ip_address }

/-- The effect of the merge patch issued by `set_eip_status_attached`
(src/src/main.rs lines 202-225) and `set_status_attached`
(src/eip_operator/src/eip.rs lines 336-358): sets `eni` and
`privateIpAddress`, leaves the allocation pair untouched. -/
def merge_status_attached (old : Option EipStatus)
    (eni private_ip : String) : EipStatus :=
  { allocation_id := match old with | none => none | some s => s.allocation_id
    public_ip_address := match old with | none => none | some s => s.public_ip_address
    eni := some eni
    private_ip_address := some private_ip }

/-- The effect of the merge patch issued by `set_eip_status_detached`
(src/src/main.rs lines 228-246) and `set_status_detached`
(src/eip_operator/src/eip.rs lines 361-379): explicit nulls clear `eni`
and `privateIpAddress`, the allocation pair is untouched. -/
def merge_status_detached (old : Option EipStatus) : EipStatus :=
  { allocation_id := match old with | none => none | some s => s.allocation_id
    public_ip_address := match old with | none => none | some s => s.public_ip_address
    eni := none
    private_ip_address := none }

/-- The status pairing invariant: `allocation_id` and `public_ip_address`
are both set or both unset, and likewise `eni` and `private_ip_address`. -/
def statusPaired (s : EipStatus) : Bool :=
  (s.allocation_id.isSome == s.public_ip_address.isSome) &&
    (s.eni.isSome == s.private_ip_address.isSome)

/-- The pairing invariant lifted to an optional status (a resource with
no status yet satisfies it vacuously). -/
def statusPairedOpt : Option EipStatus → Bool
  | none => true
  | some s => statusPaired s

/-- Pod metadata, restricted to the fields the operator reads. -/
structure PodMeta where
  name : Option String
  labels : Option (List (String × String))
  annotations : Option (List (String × String))
deriving Repr, DecidableEq

/-- The pod spec fields the operator reads. -/
structure PodSpec where
  node_name : Option String
deriving Repr, DecidableEq

/-- The pod status fields the operator reads. -/
structure PodStatus where
  pod_ip : Option String
deriving Repr, DecidableEq

/-- A pod as observed by the operator. -/
structure Pod where
  metadata : PodMeta
  spec : Option PodSpec
  status : Option PodStatus
deriving Repr, DecidableEq

/-- One entry of the pod-eni annotation value
(src/src/main.rs lines 263-267): only `eniId` is read. -/
structure EniDescription where
  eni_id : String
deriving Repr, DecidableEq

/-- The autocreate label key (src/src/main.rs line 50). -/
def AUTOCREATE_EIP_LABEL : String := "eip.materialize.cloud/autocreate_eip"

/-- `should_autocreate_eip` (src/src/main.rs lines 284-292): the
autocreate label, defaulted to "false", lowercased, compared to "true". -/
def should_autocreate_eip (pod : Pod) : Bool :=
  (((pod.metadata.labels.bind fun ls =>
      ls.lookup AUTOCREATE_EIP_LABEL).getD "false").toLower) == "true"

/-- `get_eni_id_from_annotation` (src/src/main.rs lines 270-281),
embedded with the JSON deserializer (`serde_json::from_str` into
`Vec<EniDescription>`) as the explicit argument `parseEniList`; every
`?` in the source short-circuits to `none`, including a parse failure
(`.ok()?`) and an empty parsed list (`.first()?`). -/
def get_eni_id_from_annot
    (parseEniList : String → Option (List EniDescription)) (pod : Pod) :
    Option String :=
  match pod.metadata.annotations with
  | none => none
  | some anns =>
    match anns.lookup "vpc.amazonaws.com/pod-eni" with
    | none => none
    | some ann =>
      match parseEniList ann with
      | none => none
      | some descs =>
        match descs.head? with
        | none => none
        | some d => some d.eni_id

/-- An EC2 network interface as read by `apply_pod`'s fallback: its id
and its private IP entries (each entry's `private_ip_address` field). -/
structure NetworkInterface where
  network_interface_id : Option String
  private_ip_addresses : Option (List (Option String))
deriving Repr, DecidableEq

/-- The instance-description fallback of `apply_pod`
(src/src/main.rs lines 371-403): scan the instance's network interfaces
for the one owning an IP equal to the pod IP. -/
def find_eni_by_pod_ip (nics : Option (List NetworkInterface))
    (pod_ip : String) : Except Error String :=
  match nics with
  | none => .error .MissingNetworkInterfaces
  | some nics =>
    match nics.findSome? (fun nic =>
      nic.private_ip_addresses.bind fun ips =>
        ips.findSome? fun ipEntry =>
          match ipEntry with
          | none => none
          | some x => if x == pod_ip then nic.network_interface_id else none) with
    | some eni_id => .ok eni_id
    | none => .error .NoInterfaceWithThatIp

/-- The ENI-resolution step of `apply_pod` (src/src/main.rs lines
369-404): the annotation wins when it yields an id; otherwise the
instance-description fallback runs. -/
def resolve_pod_eni (parseEniList : String → Option (List EniDescription))
    (pod : Pod) (instanceNics : Option (List NetworkInterface))
    (pod_ip : String) : Except Error String :=
  match get_eni_id_from_annot parseEniList pod with
  | some eni_id => .ok eni_id
  | none => find_eni_by_pod_ip instanceNics pod_ip

/-- The kube API error shape `delete_k8s_eip` discriminates on:
`kube::Error::Api` carries an HTTP status code; every other variant is
collapsed into `other`. -/
inductive KubeError where
  | api (code : Nat)
  | other
deriving Repr, DecidableEq

/-- `delete_k8s_eip` (src/src/main.rs lines 310-321) and `delete`
(src/eip_operator/src/eip.rs lines 295-306), embedded over the API
server's response to the delete call: a 404 API error becomes success,
everything else is passed through. -/
def delete_k8s_eip (deleteResult : Except KubeError Unit) :
    Except KubeError Unit :=
  match deleteResult with
  | .ok _ => .ok ()
  | .error (.api code) =>
    if code == 404 then .ok () else .error (.api code)
  | .error .other => .error .other

/-- `cleanup_pod` (src/src/main.rs lines 506-547), embedded over the Eip
list response and the describe response for the found Eip's allocation.
Output: the mutation trace in program order and the reconcile result. -/
def cleanup_pod (pod : Pod) (all_eips : List Eip)
    (describeAddresses : Option (List Address)) :
    List Action × Except Error Unit :=
  match pod.metadata.name with
  | none => ([], .error .MissingPodUid)
  | some pod_name =>
    match all_eips.find? fun eip => eip.spec.pod_name == pod_name with
    | some eip =>
      match eip.status with
      | none => ([], .error .MissingEipStatus)
      | some st =>
        match st.allocation_id with
        | none => ([], .error .MissingAllocationId)
        | some _allocation_id =>
          match describeAddresses with
          | none => ([], .error .MissingAddresses)
          | some addresses =>
            let disassocs := addresses.filterMap fun addr =>
              addr.association_id.map fun assoc => Action.disassociate assoc
            match eip.metadata.name with
            | none => (disassocs, .error .MissingEipName)
            | some eip_name =>
              let trace := disassocs ++ [Action.patchStatusDetached eip_name]
              if should_autocreate_eip pod then
                (trace ++ [Action.deleteKubeEip pod_name], .ok ())
              else
                (trace, .ok ())
    | none =>
      if should_autocreate_eip pod then
        ([Action.deleteKubeEip pod_name], .ok ())
      else
        ([], .ok ())

/-- The finalizer wrapper around the pod reconciler
(src/src/main.rs lines 675-681, `kube_runtime::finalizer`): the
finalizer blocking the pod's deletion is removed only when the cleanup
returns success. -/
def finalizer_removed_after_cleanup
    (result : List Action × Except Error Unit) : Bool :=
  match result.2 with
  | .ok _ => true
  | .error _ => false

end EipOperator

namespace EipOperator

/-- C1: when the describe-by-uid-tag query returns more than one address,
`apply_eip` fails with `MultipleEipsTaggedForPod` and issues no mutating
action at all: no allocate, associate or release call and no status
patch, so the Eip status is left unchanged. -/
theorem apply_eip_multiple_tagged (eip : Eip) (u n : String)
    (addresses : List Address) (allocResp : AllocateAddressResponse)
    (hu : eip.metadata.uid = some u) (hn : eip.metadata.name = some n)
    (hlen : 1 < addresses.length) :
    apply_eip eip (some addresses) allocResp =
      ([], .error .MultipleEipsTaggedForPod) := by
  match addresses with
  | [] => simp at hlen
  | [_] => simp at hlen
  | _ :: _ :: _ => simp [apply_eip, hu, hn]

/-- Witness for C1 at a concrete two-address input. -/
theorem apply_eip_multiple_tagged_witness :
    apply_eip
      ⟨⟨some "eip-a", some "uid-a", none⟩, ⟨"pod-a"⟩, none⟩
      (some [⟨some "alloc-1", some "1.2.3.4", none, none, none⟩,
             ⟨some "alloc-2", some "5.6.7.8", none, none, none⟩])
      ⟨none, none⟩ =
      ([], .error .MultipleEipsTaggedForPod) :=
  apply_eip_multiple_tagged
    ⟨⟨some "eip-a", some "uid-a", none⟩, ⟨"pod-a"⟩, none⟩
    "uid-a" "eip-a"
    [⟨some "alloc-1", some "1.2.3.4", none, none, none⟩,
     ⟨some "alloc-2", some "5.6.7.8", none, none, none⟩]
    ⟨none, none⟩ rfl rfl (by decide)

/-- C3: each of the three status merge patches preserves the pairing
invariant, and in particular the created patch sets `allocation_id` and
`public_ip_address` together, the attached patch sets `eni` and
`private_ip_address` together, and the detached patch clears `eni` and
`private_ip_address` together. -/
theorem status_patches_preserve_pairing (old : Option EipStatus)
    (aid ip eni pip : String) (hold : statusPairedOpt old = true) :
    (statusPaired (merge_status_created old aid ip) = true ∧
      (merge_status_created old aid ip).allocation_id = some aid ∧
      (merge_status_created old aid ip).public_ip_address = some ip) ∧
    (statusPaired (merge_status_attached old eni pip) = true ∧
      (merge_status_attached old eni pip).eni = some eni ∧
      (merge_status_attached old eni pip).private_ip_address = some pip) ∧
    (statusPaired (merge_status_detached old) = true ∧
      (merge_status_detached old).eni = none ∧
      (merge_status_detached old).private_ip_address = none) := by
  match old with
  | none =>
    simp [statusPaired, merge_status_created, merge_status_attached,
      merge_status_detached]
  | some s =>
    simp only [statusPairedOpt, statusPaired, Bool.and_eq_true, beq_iff_eq] at hold
    simp [statusPaired, merge_status_created, merge_status_attached,
      merge_status_detached, hold.1, hold.2]

/-- Witness for C3 at a concrete already-created status. -/
theorem status_patches_preserve_pairing_witness :
    statusPaired (merge_status_created
      (some ⟨some "a1", some "ip1", none, none⟩) "a2" "ip2") = true ∧
    statusPaired (merge_status_attached
      (some ⟨some "a1", some "ip1", none, none⟩) "eni1" "pip1") = true ∧
    statusPaired (merge_status_detached
      (some ⟨some "a1", some "ip1", none, none⟩)) = true := by
  have h := status_patches_preserve_pairing
    (some ⟨some "a1", some "ip1", none, none⟩) "a2" "ip2" "eni1" "pip1"
    (by decide)
  exact ⟨h.1.1, h.2.1.1, h.2.2.1⟩

/-- C5 counterexample: an apply reconcile over an Eip whose status already
records the single tagged address's allocation id and public ip still
issues a status patch — the trace is not empty, refuting "the second run
of apply against an already-reconciled Eip issues no status patch". -/
theorem apply_eip_adopt_always_patches_counterexample :
    apply_eip
      ⟨⟨some "eip-a", some "uid-a", none⟩, ⟨"pod-a"⟩,
        some ⟨some "alloc-1", some "1.2.3.4", none, none⟩⟩
      (some [⟨some "alloc-1", some "1.2.3.4", none, none, none⟩])
      ⟨none, none⟩ =
      ([.patchStatusCreated "eip-a" "alloc-1" "1.2.3.4"], .ok ()) ∧
    ([Action.patchStatusCreated "eip-a" "alloc-1" "1.2.3.4"] : List Action) ≠ [] := by
  exact ⟨rfl, by decide⟩

/-- C5 amended: on an apply reconcile with exactly one tagged address the
reconciler adopts it and always issues exactly one status patch carrying
that address's allocation id and public ip (no allocate, associate or
release); when the prior status already records them, the patch leaves
the status value unchanged, so the second run is a value-level no-op
even though the patch is still issued. -/
theorem apply_eip_adopt_single (eip : Eip) (u n aid ip : String)
    (addr : Address) (allocResp : AllocateAddressResponse)
    (hu : eip.metadata.uid = some u) (hn : eip.metadata.name = some n)
    (haid : addr.allocation_id = some aid) (hip : addr.public_ip = some ip) :
    apply_eip eip (some [addr]) allocResp =
      ([.patchStatusCreated n aid ip], .ok ()) ∧
    (∀ st, eip.status = some st → st.allocation_id = some aid →
      st.public_ip_address = some ip → merge_status_created eip.status aid ip = st) := by
  constructor
  · simp [apply_eip, hu, hn, haid, hip]
  · intro st hst h1 h2
    simp [merge_status_created, hst, ← h1, ← h2]

/-- Witness for C5's amended claim at the already-reconciled input. -/
theorem apply_eip_adopt_single_witness :
    apply_eip
      ⟨⟨some "eip-a", some "uid-a", none⟩, ⟨"pod-a"⟩,
        some ⟨some "alloc-1", some "1.2.3.4", none, none⟩⟩
      (some [⟨some "alloc-1", some "1.2.3.4", none, none, none⟩])
      ⟨none, none⟩ =
      ([.patchStatusCreated "eip-a" "alloc-1" "1.2.3.4"], .ok ()) ∧
    merge_status_created (some ⟨some "alloc-1", some "1.2.3.4", none, none⟩)
      "alloc-1" "1.2.3.4" = ⟨some "alloc-1", some "1.2.3.4", none, none⟩ := by
  have h := apply_eip_adopt_single
    ⟨⟨some "eip-a", some "uid-a", none⟩, ⟨"pod-a"⟩,
      some ⟨some "alloc-1", some "1.2.3.4", none, none⟩⟩
    "uid-a" "eip-a" "alloc-1" "1.2.3.4"
    ⟨some "alloc-1", some "1.2.3.4", none, none, none⟩
    ⟨none, none⟩ rfl rfl rfl rfl
  exact ⟨h.1, h.2 ⟨some "alloc-1", some "1.2.3.4", none, none⟩ rfl rfl rfl⟩

/-- C2: a v1 object with a present `pod_name` and a metadata name
converts to a v2 object with selector `Pod { pod_name }` and the same
resource version, and its v1 view carries the same `pod_name`; a v1
object with an absent `pod_name` yields the skip result `.error none`
(not a hard error), which `upgrade_old_resources` treats as a no-op. -/
theorem v1_to_v2_upgrade_roundtrip :
    (∀ (eip_v1 : LaxEip) (p n : String),
      eip_v1.spec.pod_name = some p → eip_v1.metadata.name = some n →
      v2_try_from eip_v1 =
        .ok ⟨⟨some n, none, eip_v1.metadata.resource_version⟩, ⟨.pod p⟩, none⟩ ∧
      v1_view_pod_name
        ⟨⟨some n, none, eip_v1.metadata.resource_version⟩, ⟨.pod p⟩, none⟩ = some p) ∧
    (∀ eip_v1 : LaxEip, eip_v1.spec.pod_name = none →
      v2_try_from eip_v1 = .error none ∧ upgrade_old_resources [eip_v1] = .ok []) := by
  constructor
  · intro eip_v1 p n hp hn
    exact ⟨by simp [v2_try_from, hp, hn, v2Eip_new], rfl⟩
  · intro eip_v1 hp
    refine ⟨by simp [v2_try_from, hp], ?_⟩
    simp [upgrade_old_resources, v2_try_from, hp]

/-- Witness for C2 at a concrete convertible v1 object and a concrete
skipped one. -/
theorem v1_to_v2_upgrade_roundtrip_witness :
    (v2_try_from ⟨⟨some "legacy", none, some "42"⟩, ⟨some "p3"⟩⟩ =
      .ok ⟨⟨some "legacy", none, some "42"⟩, ⟨.pod "p3"⟩, none⟩ ∧
     v1_view_pod_name ⟨⟨some "legacy", none, some "42"⟩, ⟨.pod "p3"⟩, none⟩ =
      some "p3") ∧
    (v2_try_from ⟨⟨some "other", none, none⟩, ⟨none⟩⟩ = .error none ∧
     upgrade_old_resources [⟨⟨some "other", none, none⟩, ⟨none⟩⟩] = .ok []) :=
  ⟨v1_to_v2_upgrade_roundtrip.1 ⟨⟨some "legacy", none, some "42"⟩, ⟨some "p3"⟩⟩
      "p3" "legacy" rfl rfl,
   v1_to_v2_upgrade_roundtrip.2 ⟨⟨some "other", none, none⟩, ⟨none⟩⟩ rfl⟩

/-- C4: for a Node-selector Eip, `matches_node` is true exactly when every
selector entry is present in the node labels with an equal value; a
Pod-selector Eip never matches a node and a Node-selector Eip never
matches a pod — cross-variant mismatch is `false`, not an error. -/
theorem matches_selector_correct :
    (∀ (eip : V2Eip) (sel node_labels : List (String × String)),
      eip.spec.selector = .node sel →
      (matches_node eip node_labels = true ↔
        ∀ kv ∈ sel, node_labels.lookup kv.1 = some kv.2)) ∧
    (∀ (eip : V2Eip) (p : String) (node_labels : List (String × String)),
      eip.spec.selector = .pod p → matches_node eip node_labels = false) ∧
    (∀ (eip : V2Eip) (sel : List (String × String)) (pod_name : String),
      eip.spec.selector = .node sel → matches_pod eip pod_name = false) := by
  refine ⟨?_, ?_, ?_⟩
  · intro eip sel node_labels h
    simp [matches_node, h, List.all_eq_true]
  · intro eip p node_labels h
    simp [matches_node, h]
  · intro eip sel pod_name h
    simp [matches_pod, h]

/-- Witness for C4: a concrete superset match, a concrete non-match and
both cross-variant mismatches. -/
theorem matches_selector_correct_witness :
    matches_node ⟨⟨some "e", none, none⟩, ⟨.node [("az", "a")]⟩, none⟩
      [("az", "a"), ("extra", "x")] = true ∧
    matches_node ⟨⟨some "e", none, none⟩, ⟨.pod "p"⟩, none⟩ [("az", "a")] = false ∧
    matches_pod ⟨⟨some "e", none, none⟩, ⟨.node [("az", "a")]⟩, none⟩ "p" = false := by
  refine ⟨?_, ?_, ?_⟩
  · exact (matches_selector_correct.1
      ⟨⟨some "e", none, none⟩, ⟨.node [("az", "a")]⟩, none⟩
      [("az", "a")] [("az", "a"), ("extra", "x")] rfl).mpr (by decide)
  · exact matches_selector_correct.2.1
      ⟨⟨some "e", none, none⟩, ⟨.pod "p"⟩, none⟩ "p" [("az", "a")] rfl
  · exact matches_selector_correct.2.2
      ⟨⟨some "e", none, none⟩, ⟨.node [("az", "a")]⟩, none⟩ [("az", "a")] "p" rfl

/-- C9: an Eip whose Node selector has an empty label map matches every
node label map: the superset check is vacuously satisfied. -/
theorem matches_node_empty_selector (eip : V2Eip)
    (node_labels : List (String × String))
    (h : eip.spec.selector = .node []) :
    matches_node eip node_labels = true := by
  simp [matches_node, h]

/-- Witness for C9 at a concrete empty-selector Eip and nonempty labels. -/
theorem matches_node_empty_selector_witness :
    matches_node ⟨⟨some "e", none, none⟩, ⟨.node []⟩, none⟩
      [("any", "labels")] = true :=
  matches_node_empty_selector
    ⟨⟨some "e", none, none⟩, ⟨.node []⟩, none⟩ [("any", "labels")] rfl

/-- C8: evaluating the Display implementation at a two-label Node
selector shows the separator is never emitted — the `first` flag is only
cleared inside the branch guarded by `!first`, which never runs, so the
rendering is `Node(a: 1b: 2)` and not the comma-separated
`Node(a: 1, b: 2)` the claim states. -/
theorem display_node_selector_missing_separator :
    eipSelectorDisplay (.node [("a", "1"), ("b", "2")]) = "Node(a: 1b: 2)" ∧
    "Node(a: 1b: 2)" ≠ "Node(a: 1, b: 2)" :=
  ⟨rfl, by decide⟩

/-- C6 counterexample: a pod whose pod-eni annotation is present but
unparseable (the deserializer rejects every input) does not make the
reconcile fail: the ENI resolution silently falls back to the instance
description and succeeds, so no error is returned for the malformed
annotation. -/
theorem unparseable_pod_eni_counterexample :
    get_eni_id_from_annot (fun _ => none)
      ⟨⟨some "p1", none, some [("vpc.amazonaws.com/pod-eni", "not json")]⟩,
        none, none⟩ = none ∧
    resolve_pod_eni (fun _ => none)
      ⟨⟨some "p1", none, some [("vpc.amazonaws.com/pod-eni", "not json")]⟩,
        none, none⟩
      (some [⟨some "eni-fb", some [some "10.0.0.1"]⟩]) "10.0.0.1" =
      .ok "eni-fb" :=
  ⟨rfl, rfl⟩

/-- C6 amended: a pod-eni annotation that is present but fails to parse
is treated exactly as if the annotation were absent:
`get_eni_id_from_annotation` yields `none` and `apply_pod` resolves the
ENI through the instance-description fallback; the malformed annotation
itself never produces an error. -/
theorem unparseable_pod_eni_treated_as_absent
    (parseEniList : String → Option (List EniDescription)) (pod : Pod)
    (anns : List (String × String)) (ann : String)
    (nics : Option (List NetworkInterface)) (pod_ip : String)
    (hanns : pod.metadata.annotations = some anns)
    (hann : anns.lookup "vpc.amazonaws.com/pod-eni" = some ann)
    (hparse : parseEniList ann = none) :
    get_eni_id_from_annot parseEniList pod = none ∧
    resolve_pod_eni parseEniList pod nics pod_ip =
      find_eni_by_pod_ip nics pod_ip := by
  have h : get_eni_id_from_annot parseEniList pod = none := by
    simp [get_eni_id_from_annot, hanns, hann, hparse]
  exact ⟨h, by simp [resolve_pod_eni, h]⟩

/-- Witness for C6's amended claim at the concrete malformed input. -/
theorem unparseable_pod_eni_treated_as_absent_witness :
    get_eni_id_from_annot (fun _ => none)
      ⟨⟨some "p1", none, some [("vpc.amazonaws.com/pod-eni", "not json")]⟩,
        none, none⟩ = none ∧
    resolve_pod_eni (fun _ => none)
      ⟨⟨some "p1", none, some [("vpc.amazonaws.com/pod-eni", "not json")]⟩,
        none, none⟩
      (some [⟨some "eni-fb", some [some "10.0.0.1"]⟩]) "10.0.0.1" =
      find_eni_by_pod_ip (some [⟨some "eni-fb", some [some "10.0.0.1"]⟩])
        "10.0.0.1" :=
  unparseable_pod_eni_treated_as_absent (fun _ => none)
    ⟨⟨some "p1", none, some [("vpc.amazonaws.com/pod-eni", "not json")]⟩,
      none, none⟩
    [("vpc.amazonaws.com/pod-eni", "not json")] "not json"
    (some [⟨some "eni-fb", some [some "10.0.0.1"]⟩]) "10.0.0.1"
    rfl rfl rfl

/-- C7: deleting the Kubernetes Eip resource treats a 404 API error as
success (idempotent no-op) and propagates every other error unchanged. -/
theorem delete_k8s_eip_not_found_is_ok :
    delete_k8s_eip (.error (.api 404)) = .ok () ∧
    (∀ e : KubeError, e ≠ .api 404 →
      delete_k8s_eip (.error e) = .error e) ∧
    delete_k8s_eip (.ok ()) = .ok () := by
  refine ⟨rfl, ?_, rfl⟩
  intro e he
  match e with
  | .other => rfl
  | .api code =>
    have hc : code ≠ 404 := fun h => he (by rw [h])
    simp [delete_k8s_eip, hc]

/-- Witness for C7 at a concrete non-404 API error. -/
theorem delete_k8s_eip_not_found_is_ok_witness :
    delete_k8s_eip (.error (.api 500)) = .error (.api 500) :=
  delete_k8s_eip_not_found_is_ok.2.1 (.api 500) (by decide)

/-- C10: when the Eip found for the pod's name has no status, or a status
without an allocation id, `cleanup_pod` fails with `MissingEipStatus`
resp. `MissingAllocationId` having issued no mutation, and the finalizer
blocking the pod's deletion is not removed. -/
theorem cleanup_pod_blocks_without_allocation
    (pod : Pod) (pod_name : String) (all_eips : List Eip) (eip : Eip)
    (d : Option (List Address))
    (hname : pod.metadata.name = some pod_name)
    (hfind : all_eips.find? (fun e => e.spec.pod_name == pod_name) = some eip) :
    (eip.status = none →
      cleanup_pod pod all_eips d = ([], .error .MissingEipStatus) ∧
      finalizer_removed_after_cleanup (cleanup_pod pod all_eips d) = false) ∧
    (∀ st, eip.status = some st → st.allocation_id = none →
      cleanup_pod pod all_eips d = ([], .error .MissingAllocationId) ∧
      finalizer_removed_after_cleanup (cleanup_pod pod all_eips d) = false) := by
  constructor
  · intro hst
    have h : cleanup_pod pod all_eips d = ([], .error .MissingEipStatus) := by
      simp [cleanup_pod, hname, hfind, hst]
    exact ⟨h, by rw [h]; rfl⟩
  · intro st hst halloc
    have h : cleanup_pod pod all_eips d = ([], .error .MissingAllocationId) := by
      simp [cleanup_pod, hname, hfind, hst, halloc]
    exact ⟨h, by rw [h]; rfl⟩

/-- Witness for C10: concrete pods whose matching Eip lacks a status,
resp. lacks an allocation id. -/
theorem cleanup_pod_blocks_without_allocation_witness :
    cleanup_pod ⟨⟨some "p1", none, none⟩, none, none⟩
      [⟨⟨some "p1", some "u1", none⟩, ⟨"p1"⟩, none⟩] none =
      ([], .error .MissingEipStatus) ∧
    cleanup_pod ⟨⟨some "p1", none, none⟩, none, none⟩
      [⟨⟨some "p1", some "u1", none⟩, ⟨"p1"⟩,
        some ⟨none, none, none, none⟩⟩] none =
      ([], .error .MissingAllocationId) :=
  ⟨((cleanup_pod_blocks_without_allocation
      ⟨⟨some "p1", none, none⟩, none, none⟩ "p1"
      [⟨⟨some "p1", some "u1", none⟩, ⟨"p1"⟩, none⟩]
      ⟨⟨some "p1", some "u1", none⟩, ⟨"p1"⟩, none⟩ none rfl rfl).1 rfl).1,
   ((cleanup_pod_blocks_without_allocation
      ⟨⟨some "p1", none, none⟩, none, none⟩ "p1"
      [⟨⟨some "p1", some "u1", none⟩, ⟨"p1"⟩, some ⟨none, none, none, none⟩⟩]
      ⟨⟨some "p1", some "u1", none⟩, ⟨"p1"⟩, some ⟨none, none, none, none⟩⟩
      none rfl rfl).2 ⟨none, none, none, none⟩ rfl rfl).1⟩

end EipOperator
